import Mathlib

/-!
Verification of the deployment-session logic of the web UI.

The reviewable core is the DeployTab component: selecting a project
archive, uploading it, launching a deployment job, and polling the job
status until completion. The component's local state and its three
handlers (handleFileSelect, handleDeploy, pollDeploymentStatus) plus the
reset control are embedded below as pure functions; the network is
modelled by an environment of responses, and the recurring status poll
by a step function folded over one response per tick.
-/

namespace DeployTab

/-- A selected file as the handlers see it: only its declared name matters. -/
structure FileObj where
  name : String
deriving DecidableEq, Repr

/-- The component's local state: the seven useState cells of DeployTab. -/
structure DeployState where
  file : Option FileObj
  deploying : Bool
  deploymentId : Option String
  status : Option String
  logs : List String
  error : Option String
  dragOver : Bool
deriving DecidableEq, Repr

/-- The initial state of the component (all useState initial values). -/
def initialState : DeployState :=
  { file := none, deploying := false, deploymentId := none, status := none,
    logs := [], error := none, dragOver := false }

/-- A network request issued by handleDeploy: the upload post and the
deploy-start post (with its body fields). -/
inductive Request where
  | upload
  | start (uploadId : String) (app : String)
deriving DecidableEq, Repr

/-- An axios error: an optional machine-readable response detail plus a message,
mirroring err.response?.data?.detail and err.message. -/
structure NetErr where
  detail : Option String
  message : String
deriving DecidableEq, Repr

/-- The error text shown to the user: err.response?.data?.detail || err.message,
with JavaScript falsiness of the empty string. -/
def errDetail (e : NetErr) : String :=
  match e.detail with
  | some d => if d = "" then e.message else d
  | none => e.message

/-- The client-side validation message of handleFileSelect. -/
def validZipMsg : String := "Please select a valid .zip file containing your project"

/-- The JavaScript test name.endsWith(".zip"): the character list ".zip" is a
suffix of the name's character list. -/
def endsWithZip (name : String) : Bool := ".zip".data.isSuffixOf name.data

/-- handleFileSelect: accept the file iff it is present and its name ends in
".zip"; otherwise only set the error. The request list records the network
calls the handler makes (none). -/
def handleFileSelect (s : DeployState) (selectedFile : Option FileObj) :
    DeployState × List Request :=
  match selectedFile with
  | some f =>
      if endsWithZip f.name then
        ({ s with file := some f, error := none }, [])
      else
        ({ s with error := some validZipMsg }, [])
  | none => ({ s with error := some validZipMsg }, [])

/-- Whether handleFileSelect accepts the argument: present and named *.zip. -/
def accepts : Option FileObj → Bool
  | some f => endsWithZip f.name
  | none => false

/-- Remove the first occurrence of pat from a character list, leaving the list
unchanged when pat does not occur: the semantics of the JavaScript
String.replace with a string pattern and an empty replacement. -/
def dropFirstOcc (pat : List Char) : List Char → List Char
  | [] => []
  | c :: cs =>
      if pat.isPrefixOf (c :: cs) then (c :: cs).drop pat.length
      else c :: dropFirstOcc pat cs

/-- The app name sent to the deploy-start endpoint:
name.replace(".zip", "").toLowerCase() - first occurrence of ".zip" removed,
then lowercased (ASCII, as in every name the UI accepts). -/
def appName (name : String) : String :=
  String.mk ((dropFirstOcc ".zip".data name.data).map Char.toLower)

/-- Modelled from the spec's words, for comparison with appName only:
lowercase the declared name, then strip a trailing ".zip" extension. -/
def specDerivedName (name : String) : String :=
  let l := name.data.map Char.toLower
  if endsWithZip (String.mk l) then String.mk (l.take (l.length - 4))
  else String.mk l

/-- The body of a successful upload response. -/
structure UploadResp where
  upload_id : String
deriving DecidableEq, Repr

/-- The body of a successful deploy-start response. -/
structure StartResp where
  deployment_id : String
deriving DecidableEq, Repr

/-- The environment of handleDeploy: the outcome of the upload post and of
the deploy-start post. -/
structure DeployEnv where
  uploadResp : Except NetErr UploadResp
  startResp : Except NetErr StartResp

/-- handleDeploy: with no file selected, set the error and return; otherwise
clear error and logs, upload, then launch, appending the progress lines and
recording state transitions exactly as the source does; any thrown error is
caught, recorded, and moves the status to failed; the finally clause resets
the deploying flag. The request list records the network calls issued, in
order. Polling is started separately (pollRun) from the returned state. -/
def handleDeploy (s : DeployState) (env : DeployEnv) : DeployState × List Request :=
  match s.file with
  | none => ({ s with error := some "Please select a file first" }, [])
  | some f =>
      let s1 : DeployState :=
        { s with deploying := true, error := none, logs := [],
                 status := some "uploading" }
      let s2 : DeployState := { s1 with logs := s1.logs ++ ["📦 Uploading project files..."] }
      match env.uploadResp with
      | Except.error e =>
          ({ s2 with error := some (errDetail e), status := some "failed",
                     logs := s2.logs ++ ["❌ Deployment failed: " ++ e.message],
                     deploying := false }, [Request.upload])
      | Except.ok u =>
          let s3 : DeployState :=
            { s2 with logs := s2.logs ++ ["✅ Upload complete"], status := some "building" }
          let s4 : DeployState := { s3 with logs := s3.logs ++ ["🔨 Building Docker image..."] }
          match env.startResp with
          | Except.error e =>
              ({ s4 with error := some (errDetail e), status := some "failed",
                         logs := s4.logs ++ ["❌ Deployment failed: " ++ e.message],
                         deploying := false },
               [Request.upload, Request.start u.upload_id (appName f.name)])
          | Except.ok d =>
              let s5 : DeployState :=
                { s4 with deploymentId := some d.deployment_id,
                          logs := s4.logs ++ ["🚀 Deploying to Azure Container Instances..."] }
              ({ s5 with deploying := false },
               [Request.upload, Request.start u.upload_id (appName f.name)])

/-- One status-poll outcome: a response body (status tag, optional message,
optional url) or a network error. -/
inductive PollResp where
  | ok (st : String) (message : Option String) (url : Option String)
  | err (e : NetErr)
deriving DecidableEq, Repr

/-- String interpolation of a possibly absent url, as JavaScript renders it. -/
def renderUrl : Option String → String
  | some u => u
  | none => "undefined"

/-- One tick of the interval callback of pollDeploymentStatus. Returns the new
state and whether the interval is still running (false means clearInterval was
called, so no further ticks occur). A response with any other status tag is
treated as in-progress; its message, when present and non-empty, is appended
to the log. A network error clears the interval leaving the state unchanged. -/
def pollStep (s : DeployState) : PollResp → DeployState × Bool
  | PollResp.ok st msg url =>
      if st = "succeeded" then
        ({ s with status := some "succeeded",
                  logs := s.logs ++ ["✅ Deployment successful!",
                                     "🌐 Your app is live at: " ++ renderUrl url] }, false)
      else if st = "failed" then
        ({ s with status := some "failed",
                  logs := s.logs ++ ["❌ Deployment failed"] }, false)
      else
        (match msg with
         | some m => if m = "" then s else { s with logs := s.logs ++ [m] }
         | none => s, true)
  | PollResp.err _ => (s, false)

/-- Run the polling loop over one response per tick. Returns the final state
and whether the interval was cleared during the run; once cleared, the
remaining responses never arrive and are ignored. -/
def pollRun : DeployState → List PollResp → DeployState × Bool
  | s, [] => (s, false)
  | s, r :: rs =>
      let p := pollStep s r
      if p.2 then pollRun p.1 rs else (p.1, true)

/-- Whether a poll response is an in-progress (non-terminal) response. -/
def isRunning : PollResp → Bool
  | PollResp.ok st _ _ => !(st == "succeeded") && !(st == "failed")
  | PollResp.err _ => false

/-- The log line an in-progress response contributes, when any. -/
def respLog : PollResp → Option String
  | PollResp.ok _ (some m) _ => if m = "" then none else some m
  | _ => none

/-- Whether the reset control (the Deploy Another App button) is rendered:
the log card is shown and the status is succeeded. -/
def resetAvailable (s : DeployState) : Bool :=
  decide (0 < s.logs.length) && s.status == some "succeeded"

/-- The reset control's click handler: clear file, deployment id, status and
logs; the other cells are untouched. -/
def resetAction (s : DeployState) : DeployState :=
  { s with file := none, deploymentId := none, status := none, logs := [] }

/-- A concrete mid-deployment state: reached after a selected file uploaded
and launched successfully, while polling is under way. -/
def buildingState : DeployState :=
  { file := some { name := "app.zip" }, deploying := false,
    deploymentId := some "dep-1", status := some "building",
    logs := ["📦 Uploading project files...", "✅ Upload complete",
             "🔨 Building Docker image...",
             "🚀 Deploying to Azure Container Instances..."],
    error := none, dragOver := false }

/-- A concrete network error. -/
def netErr0 : NetErr := { detail := none, message := "Network Error" }

/-- A concrete network error carrying a server detail. -/
def netErr1 : NetErr := { detail := some "upload rejected", message := "Request failed" }

/-- A concrete state with a valid file selected, before deploying. -/
def selState : DeployState := { initialState with file := some { name := "demo.zip" } }

/-- A concrete terminal Failed state, as left by a failed poll response. -/
def failedState : DeployState :=
  { buildingState with status := some "failed",
                       logs := buildingState.logs ++ ["❌ Deployment failed"] }

/-- A concrete terminal Succeeded state, as left by a succeeded poll response. -/
def succeededState : DeployState :=
  { buildingState with status := some "succeeded",
                       logs := buildingState.logs ++
                         ["✅ Deployment successful!",
                          "🌐 Your app is live at: http://x.test"] }

/-! Helper lemmas about the polling loop. -/

theorem pollStep_running (s : DeployState) (r : PollResp) (h : isRunning r = true) :
    pollStep s r = ({ s with logs := s.logs ++ (respLog r).toList }, true) := by
  cases r with
  | err e => simp [isRunning] at h
  | ok st msg url =>
      simp only [isRunning, Bool.and_eq_true, Bool.not_eq_true', beq_eq_false_iff_ne] at h
      cases msg with
      | none => simp [pollStep, respLog, h.1, h.2]
      | some m =>
          by_cases hm : m = ""
          · simp [pollStep, respLog, h.1, h.2, hm]
          · simp [pollStep, respLog, h.1, h.2, hm]

theorem pollRun_running_append (pre rest : List PollResp) (s : DeployState)
    (h : ∀ r ∈ pre, isRunning r = true) :
    pollRun s (pre ++ rest)
      = pollRun { s with logs := s.logs ++ pre.filterMap respLog } rest := by
  induction pre generalizing s with
  | nil => simp
  | cons r pre ih =>
      have hr : isRunning r = true := h r (by simp)
      have hpre : ∀ x ∈ pre, isRunning x = true := fun x hx => h x (by simp [hx])
      rw [List.cons_append]
      simp only [pollRun, pollStep_running s r hr]
      rw [ih _ hpre]
      cases hrl : respLog r <;> simp [List.filterMap_cons, hrl, List.append_assoc]

theorem filterMap_respLog_running (msgs : List String) (h : ∀ m ∈ msgs, ¬ m = "") :
    (msgs.map fun m => PollResp.ok "running" (some m) none).filterMap respLog = msgs := by
  induction msgs with
  | nil => rfl
  | cons m ms ih =>
      have hm := h m (by simp)
      simp only [List.map_cons, List.filterMap_cons, respLog]
      rw [if_neg hm, ih (fun x hx => h x (by simp [hx]))]

/-- C1: once polling runs against only successfully delivered responses, the
event stream ends with exactly one terminal event - the run stops at the first
terminal response, records its status, and ignores everything after it. (The
original claim fails when a poll request errors: see the counterexample.) -/
theorem poll_terminal_unique (s : DeployState) (pre post : List PollResp)
    (st : String) (msg url : Option String)
    (hpre : ∀ r ∈ pre, isRunning r = true)
    (hst : st = "succeeded" ∨ st = "failed") :
    pollRun s (pre ++ PollResp.ok st msg url :: post)
      = pollRun s (pre ++ [PollResp.ok st msg url])
    ∧ (pollRun s (pre ++ [PollResp.ok st msg url])).2 = true
    ∧ (pollRun s (pre ++ [PollResp.ok st msg url])).1.status = some st := by
  rw [pollRun_running_append pre _ s hpre, pollRun_running_append pre _ s hpre]
  rcases hst with h | h <;> subst h <;> simp [pollRun, pollStep]

/-- C1 witness: a concrete run with one progress response, a succeeded
response, and a stale response after it. -/
theorem poll_terminal_unique_witness :
    pollRun buildingState ([PollResp.ok "running" (some "step 1") none]
        ++ PollResp.ok "succeeded" none (some "http://x.test")
          :: [PollResp.ok "failed" none none])
      = pollRun buildingState ([PollResp.ok "running" (some "step 1") none]
        ++ [PollResp.ok "succeeded" none (some "http://x.test")])
    ∧ (pollRun buildingState ([PollResp.ok "running" (some "step 1") none]
        ++ [PollResp.ok "succeeded" none (some "http://x.test")])).2 = true
    ∧ (pollRun buildingState ([PollResp.ok "running" (some "step 1") none]
        ++ [PollResp.ok "succeeded" none (some "http://x.test")])).1.status
        = some "succeeded" :=
  poll_terminal_unique buildingState _ _ _ _ _ (by decide) (Or.inl rfl)

/-- C1 counterexample: a single failed poll request while the job is building
stops polling for good (the interval is cleared) with the state unchanged and
no terminal status, so the caller observes exactly the silence the claim
rules out. -/
theorem poll_error_silence_cex :
    pollRun buildingState [PollResp.err netErr0] = (buildingState, true)
    ∧ buildingState.status = some "building"
    ∧ ¬ (buildingState.status = some "succeeded" ∨ buildingState.status = some "failed"
         ∨ buildingState.status = some "cancelled") := by decide

/-- C2: a transiently failing poll request leaves the whole state - in
particular the status - unchanged, but polling does not continue: the run
stops right there, whatever responses would have followed. -/
theorem poll_transient_error_stops (s : DeployState) (pre post : List PollResp) (e : NetErr)
    (hpre : ∀ r ∈ pre, isRunning r = true) :
    pollRun s (pre ++ PollResp.err e :: post)
      = ({ s with logs := s.logs ++ pre.filterMap respLog }, true)
    ∧ (pollRun s (pre ++ PollResp.err e :: post)).1.status = s.status := by
  rw [pollRun_running_append pre _ s hpre]
  constructor <;> simp [pollRun, pollStep]

/-- C2 witness: a concrete run with one progress response and then a network
error; later responses are never seen. -/
theorem poll_transient_error_stops_witness :
    pollRun buildingState ([PollResp.ok "running" (some "pulling") none]
        ++ PollResp.err netErr0 :: [PollResp.ok "succeeded" none (some "http://x.test")])
      = ({ buildingState with logs := buildingState.logs
            ++ ([PollResp.ok "running" (some "pulling") none].filterMap respLog) }, true)
    ∧ (pollRun buildingState ([PollResp.ok "running" (some "pulling") none]
        ++ PollResp.err netErr0
          :: [PollResp.ok "succeeded" none (some "http://x.test")])).1.status
        = buildingState.status :=
  poll_transient_error_stops buildingState _ _ netErr0 (by decide)

/-- C2 counterexample: five consecutive transient poll failures do not drive
the session to Failed - the very first failure already clears the interval
(so polling does not continue at the next interval), and the status never
becomes failed. -/
theorem poll_five_errors_cex :
    pollRun buildingState (List.replicate 5 (PollResp.err netErr0)) = (buildingState, true)
    ∧ ¬ buildingState.status = some "failed"
    ∧ pollStep buildingState (PollResp.err netErr0) = (buildingState, false) := by decide

/-- C3: when polling sees some running responses with (non-empty) messages and
then a succeeded response carrying a url, the final status is succeeded, the
interval is cleared, and the log holds every prior running message in receipt
order followed by the success line and the live-url line with exactly that
url. -/
theorem poll_succeeded_url_log (s : DeployState) (msgs : List String) (u : String)
    (h : ∀ m ∈ msgs, ¬ m = "") :
    pollRun s ((msgs.map fun m => PollResp.ok "running" (some m) none)
        ++ [PollResp.ok "succeeded" none (some u)])
      = ({ s with status := some "succeeded",
                  logs := s.logs ++ msgs
                    ++ ["✅ Deployment successful!", "🌐 Your app is live at: " ++ u] },
         true) := by
  have hpre : ∀ r ∈ msgs.map (fun m => PollResp.ok "running" (some m) none),
      isRunning r = true := by
    intro r hr
    rcases List.mem_map.mp hr with ⟨m, _, rfl⟩
    rfl
  rw [pollRun_running_append _ _ s hpre, filterMap_respLog_running msgs h]
  simp [pollRun, pollStep, renderUrl, List.append_assoc]

/-- C3 witness: two running messages, then success at http://x.test. -/
theorem poll_succeeded_url_log_witness :
    pollRun buildingState ((["pulling image", "starting container"].map
        fun m => PollResp.ok "running" (some m) none)
        ++ [PollResp.ok "succeeded" none (some "http://x.test")])
      = ({ buildingState with status := some "succeeded",
                              logs := buildingState.logs ++ ["pulling image", "starting container"]
                                ++ ["✅ Deployment successful!",
                                    "🌐 Your app is live at: " ++ "http://x.test"] },
         true) :=
  poll_succeeded_url_log buildingState _ _ (by decide)

/-! Helper lemmas about the app-name derivation. -/

theorem dropFirstOcc_append_pat (base : List Char) (h : '.' ∉ base) :
    dropFirstOcc ".zip".data (base ++ ".zip".data) = base := by
  induction base with
  | nil => decide
  | cons c cs ih =>
      have hc : ¬ c = '.' := fun heq => h (by simp [heq])
      have hcs : '.' ∉ cs := fun hm => h (by simp [hm])
      have hbe : (('.' : Char) == c) = false :=
        beq_eq_false_iff_ne.mpr fun hh => hc hh.symm
      have hpref : (".zip".data.isPrefixOf (c :: (cs ++ ".zip".data))) = false := by
        rw [show ".zip".data = ['.', 'z', 'i', 'p'] from rfl]
        simp [List.isPrefixOf, hbe]
      rw [List.cons_append]
      simp only [dropFirstOcc, hpref]
      simp [ih hcs]

/-- C4: the app name passed to the launch endpoint removes the first
occurrence of ".zip" from the declared name and lowercases the result; when
the stem before the trailing ".zip" contains no dot at all, this coincides
with the spec rule (lowercase, strip the trailing extension), and in
particular "My App.zip" yields "my app" (see the witness). The unrestricted
spec rule fails: see the counterexample. -/
theorem appName_first_occurrence (base : List Char) (h : '.' ∉ base) :
    appName (String.mk (base ++ ".zip".data)) = String.mk (base.map Char.toLower) := by
  unfold appName
  rw [show (String.mk (base ++ ".zip".data)).data = base ++ ".zip".data from rfl]
  rw [dropFirstOcc_append_pat base h]

/-- C4 witness: the spec's own example, "My App.zip" to "my app". -/
theorem appName_first_occurrence_witness :
    ('.' ∉ "My App".data) ∧ appName "My App.zip" = "my app" := by
  constructor
  · decide
  · have h := appName_first_occurrence "My App".data (by decide)
    rw [show String.mk ("My App".data ++ ".zip".data) = "My App.zip" from by decide] at h
    rw [h]
    decide

/-- C4 counterexample: for the accepted file name "a.zipb.zip" the code
removes the FIRST ".zip", yielding "ab.zip", while lowercasing plus stripping
the trailing extension (specDerivedName, the spec's rule) yields "a.zipb". -/
theorem appName_not_spec_rule_cex :
    appName "a.zipb.zip" = "ab.zip"
    ∧ specDerivedName "a.zipb.zip" = "a.zipb"
    ∧ ¬ appName "a.zipb.zip" = specDerivedName "a.zipb.zip" := by decide

/-- C5: when the upload request fails, handleDeploy issues only the upload
request - never the launch request - and the session moves straight to
failed with the error recorded in the error cell and the log. -/
theorem upload_failure_no_launch (s : DeployState) (f : FileObj) (env : DeployEnv) (e : NetErr)
    (hf : s.file = some f) (he : env.uploadResp = Except.error e) :
    handleDeploy s env
      = ({ s with deploying := false, error := some (errDetail e), status := some "failed",
                  logs := ["📦 Uploading project files...",
                           "❌ Deployment failed: " ++ e.message] },
         [Request.upload]) := by
  obtain ⟨uR, sR⟩ := env
  simp only at he
  subst he
  simp [handleDeploy, hf]

/-- C5 witness: a selected demo.zip whose upload is rejected. -/
theorem upload_failure_no_launch_witness :
    handleDeploy selState (DeployEnv.mk (Except.error netErr1) (Except.ok (StartResp.mk "d-1")))
      = ({ selState with deploying := false, error := some (errDetail netErr1),
                         status := some "failed",
                         logs := ["📦 Uploading project files...",
                                  "❌ Deployment failed: " ++ netErr1.message] },
         [Request.upload]) :=
  upload_failure_no_launch selState (FileObj.mk "demo.zip") _ netErr1 rfl rfl

/-- C7: the reset control is offered exactly when the log card is shown and
the status is succeeded, and invoking it then clears the selected file, the
deployment id, the status, and the log, leaving every other cell unchanged.
(The original claim fails after a Failed outcome: see the counterexample.) -/
theorem reset_requires_success (s : DeployState) :
    (resetAvailable s = true ↔ (¬ s.logs = [] ∧ s.status = some "succeeded"))
    ∧ (resetAvailable s = true →
        resetAction s
          = { s with file := none, deploymentId := none, status := none, logs := [] }) := by
  constructor
  · simp [resetAvailable, List.length_pos]
  · intro _
    rfl

/-- C7 witness: in the concrete succeeded state the control is offered and
resets the session cells. -/
theorem reset_requires_success_witness :
    resetAvailable succeededState = true
    ∧ resetAction succeededState
      = { succeededState with file := none, deploymentId := none, status := none,
                              logs := [] } := by
  have h := reset_requires_success succeededState
  have ha : resetAvailable succeededState = true := h.1.mpr ⟨by decide, by decide⟩
  exact ⟨ha, h.2 ha⟩

/-- C7 counterexample: in the concrete Failed terminal state the reset
control does not exist at all, contradicting the claim that reset succeeds
after any terminal state (and no state error is raised before terminal
states - the operation is simply not rendered). -/
theorem reset_after_failed_cex :
    failedState.status = some "failed" ∧ resetAvailable failedState = false := by decide

/-- C8: handleFileSelect issues no network request, rejects any present file
whose name does not end in ".zip" by setting only the validation error, and
accepts exactly the files whose name ends in ".zip" as the artifact. -/
theorem zip_only_validation (s : DeployState) (f : FileObj) :
    (handleFileSelect s (some f)).2 = []
    ∧ (endsWithZip f.name = false →
        handleFileSelect s (some f) = ({ s with error := some validZipMsg }, []))
    ∧ (endsWithZip f.name = true →
        handleFileSelect s (some f) = ({ s with file := some f, error := none }, [])) := by
  by_cases hz : endsWithZip f.name = true
  · simp [handleFileSelect, hz]
  · have hz2 : endsWithZip f.name = false := by simpa using hz
    simp [handleFileSelect, hz2]

/-- C8 witness: a .tar file is rejected with the validation error and no
network call. -/
theorem zip_only_validation_witness :
    handleFileSelect initialState (some (FileObj.mk "notes.tar"))
      = ({ initialState with error := some validZipMsg }, []) :=
  (zip_only_validation initialState (FileObj.mk "notes.tar")).2.1 (by decide)

/-- C9: with a valid file already selected, a rejected selection (absent file
or non-zip name) only sets the error message: the stored file and every other
cell are unchanged, and a deploy from the resulting state still issues the
upload request. -/
theorem file_select_frame (s : DeployState) (g : Option FileObj) (f : FileObj) (env : DeployEnv)
    (hf : s.file = some f) (hg : accepts g = false) :
    (handleFileSelect s g).1 = { s with error := some validZipMsg }
    ∧ (handleFileSelect s g).1.file = some f
    ∧ Request.upload ∈ (handleDeploy (handleFileSelect s g).1 env).2 := by
  have h1 : (handleFileSelect s g).1 = { s with error := some validZipMsg } := by
    cases g with
    | none => rfl
    | some gf =>
        have hz : endsWithZip gf.name = false := by simpa [accepts] using hg
        simp [handleFileSelect, hz]
  refine ⟨h1, ?_, ?_⟩
  · rw [h1]
    exact hf
  · rw [h1]
    obtain ⟨uR, sR⟩ := env
    cases uR <;> cases sR <;> simp [handleDeploy, hf]

/-- C9 witness: demo.zip stays selected when bad.txt is offered, and the next
deploy still uploads. -/
theorem file_select_frame_witness :
    (handleFileSelect selState (some (FileObj.mk "bad.txt"))).1
      = { selState with error := some validZipMsg }
    ∧ (handleFileSelect selState (some (FileObj.mk "bad.txt"))).1.file
      = some (FileObj.mk "demo.zip")
    ∧ Request.upload ∈ (handleDeploy (handleFileSelect selState (some (FileObj.mk "bad.txt"))).1
        (DeployEnv.mk (Except.ok (UploadResp.mk "u-1")) (Except.ok (StartResp.mk "d-1")))).2 :=
  file_select_frame selState _ _ _ rfl (by decide)

/-- C10: deploying with no selected file only sets the error message "Please
select a file first" and issues no network request; status, deployment id and
log are untouched. -/
theorem deploy_without_file (s : DeployState) (env : DeployEnv) (h : s.file = none) :
    handleDeploy s env = ({ s with error := some "Please select a file first" }, []) := by
  obtain ⟨uR, sR⟩ := env
  simp [handleDeploy, h]

/-- C10 witness: the initial state has no file. -/
theorem deploy_without_file_witness :
    handleDeploy initialState (DeployEnv.mk (Except.ok (UploadResp.mk "u-1"))
        (Except.ok (StartResp.mk "d-1")))
      = ({ initialState with error := some "Please select a file first" }, []) :=
  deploy_without_file initialState _ rfl

end DeployTab
